import Mathlib

/-!
# Verification of the LoRaDB-UI widget pipeline

Shallow embedding of the widget data pipeline of the LoRaDB-UI repository:

* `widgetDataProcessor.ts`: `processWidgetData`, `extractMeasurementValue`,
  `evaluateStatus`, `checkCondition`, `convertTemperature`, `getConvertedUnit`;
* `CompositeDeviceWidget.tsx`: `renderWidget`, `renderSection`,
  `CompositeDeviceWidget`;
* `useDashboardLayout.ts`: `deleteWidget`.

Numbers are embedded as `Rat` (the pipeline only adds, multiplies, divides and
compares measurement values; all JSON numbers are finite).  JavaScript builtins
used by the code (`Number(...)` coercion, the stable `Array.prototype.sort`)
are modelled explicitly; the timestamp interpretation `new Date(s).getTime()`
is abstracted as a parameter `getTime : String → Int`.
-/

namespace LoRaDB

/-- JSON-like values as delivered by the frame query API.  Numbers are finite
rationals: JSON has no NaN or infinity literal. -/
inductive JsonValue where
  | null
  | bool (b : Bool)
  | num (q : Rat)
  | str (s : String)
  | arr (elems : List JsonValue)
  | obj (fields : List (String × JsonValue))

/-- Truthiness of a JSON-derived JavaScript value (`if (v)` / `v && w`):
`null`, `false`, `0` and `""` are falsy, everything else (including empty
arrays and objects) is truthy.  JSON-derived numbers are never NaN. -/
def jsTruthy : JsonValue → Bool
  | .null => false
  | .bool b => b
  | .num q => decide (q ≠ 0)
  | .str s => decide (s ≠ "")
  | .arr _ => true
  | .obj _ => true

/-- Numeric value of one decimal digit character. -/
def digitVal (c : Char) : Nat := c.toNat - 48

/-- Value of a list of decimal digit characters, most significant first. -/
def natOfDigits (cs : List Char) : Nat :=
  cs.foldl (fun acc c => acc * 10 + digitVal c) 0

/-- Whitespace characters trimmed by JavaScript string-to-number coercion. -/
def isWs (c : Char) : Bool :=
  c = ' ' || c = '\t' || c = '\n' || c = '\r'

/-- Unsigned decimal literal of ECMAScript's string numeric grammar:
`digits`, `digits.digits`, `digits.` or `.digits`. -/
def parseDecimal (cs : List Char) : Option Rat :=
  let ds := cs.takeWhile Char.isDigit
  let rest := cs.dropWhile Char.isDigit
  match rest with
  | [] => if ds.isEmpty then none else some (natOfDigits ds : Rat)
  | '.' :: fs =>
    if fs.all Char.isDigit && !(ds.isEmpty && fs.isEmpty) then
      some ((natOfDigits ds : Rat) + (natOfDigits fs : Rat) / (10 : Rat) ^ fs.length)
    else none
  | _ => none

/-- Modelled JavaScript runtime builtin: `Number(string)`.  Whitespace is
trimmed, the empty string yields `0`, and an optionally signed decimal literal
yields its value; anything else yields NaN, modelled as `none`.  The exotic
ECMAScript numeric string forms (exponents, hex/octal/binary literals,
`"Infinity"`) are outside this model, as are non-finite results. -/
def jsStringToNumber (s : String) : Option Rat :=
  let t := (s.data.dropWhile isWs).reverse.dropWhile isWs |>.reverse
  match t with
  | [] => some 0
  | '-' :: rest => (parseDecimal rest).map (fun q => -q)
  | '+' :: rest => parseDecimal rest
  | _ => parseDecimal t

/-- Modelled JavaScript runtime builtin: the numeric coercion applied to one
array element when an array is converted to a number (the element is first
stringified by `Array.prototype.join`, where `null` becomes the empty string,
then the string is converted; `Number(String(n)) = n` holds for every
JavaScript number, so numeric elements convert to themselves). -/
def jsArrayElemToNumber : JsonValue → Option Rat
  | .null => some 0
  | .bool _ => none
  | .num q => some q
  | .str s => jsStringToNumber s
  | .arr [] => some 0
  | .arr [x] => jsArrayElemToNumber x
  | .arr (_ :: _ :: _) => none
  | .obj _ => none

/-- Modelled JavaScript runtime builtin: `Number(value)` on JSON-derived
values (which carry no custom `valueOf`/`toString`).  `none` models NaN.
Objects stringify to `"[object Object]"` (NaN); an array converts via its
join: empty → `0`, single element → the element's string form, more than one
element → a comma-separated string (NaN). -/
def jsToNumber : JsonValue → Option Rat
  | .null => some 0
  | .bool b => some (if b then 1 else 0)
  | .num q => some q
  | .str s => jsStringToNumber s
  | .arr [] => some 0
  | .arr [x] => jsArrayElemToNumber x
  | .arr (_ :: _ :: _) => none
  | .obj _ => none

/-- Splits a character list at every separator, keeping empty segments, as
`String.prototype.split` does (`"".split(sep)` is `[""]`). -/
def splitDots (cs : List Char) : List (List Char) :=
  match cs with
  | [] => [[]]
  | c :: rest =>
    let r := splitDots rest
    if c = '.' then [] :: r
    else
      match r with
      | h :: t => (c :: h) :: t
      | [] => [[c]]

/-- Dot-splitting of a path string, as `path.split('.')`. -/
def splitPath (s : String) : List String :=
  (splitDots s.data).map (fun l => String.mk l)

/-- Canonical array index: the property name hitting array element `i` is the
canonical decimal string of `i` (no sign, no leading zeros). -/
def parseIndex (k : String) : Option Nat :=
  match k.data with
  | [] => none
  | '0' :: [] => some 0
  | '0' :: _ :: _ => none
  | cs => if cs.all Char.isDigit then some (natOfDigits cs) else none

/-- Property access on one JSON value: object field lookup by key, array
element lookup by canonical decimal index; anything else is `undefined`. -/
def jsGet (v : JsonValue) (key : String) : Option JsonValue :=
  match v with
  | .obj fields => (fields.find? (fun f => f.fst == key)).map Prod.snd
  | .arr elems =>
    match parseIndex key with
    | some i => elems.get? i
    | none => none
  | _ => none

/-- Walks a resolved segment list through nested values; `none` models
`undefined` (a missing segment or a non-resolving path). -/
def walkPath : JsonValue → List String → Option JsonValue
  | v, [] => some v
  | v, k :: rest =>
    match jsGet v k with
    | some v2 => walkPath v2 rest
    | none => none

/-- Modelled from the spec: the helper `getNestedValue` of `queryParser.ts` is
not among the provided sources (only its import and call sites are).  Per spec
§4.1 it traverses nested object/array keys segment by segment following the
dot-separated path and never throws; a missing segment or a non-resolving
path yields nothing. -/
def getNestedValue (v : JsonValue) (path : String) : Option JsonValue :=
  walkPath v (splitPath path)

/-- Embeds `extractMeasurementValue` (widgetDataProcessor.ts): resolve the
path, return `null` for a `null`/`undefined` result, then apply `Number(...)`
and return `null` when the coercion yields NaN. -/
def extractMeasurementValue (frame : JsonValue) (path : String) : Option Rat :=
  match getNestedValue frame path with
  | none => none
  | some .null => none
  | some v => jsToNumber v

/-- Status levels of `types/widgets.ts`. -/
inductive StatusLevel where
  | success
  | warning
  | error
  | info
deriving Repr, DecidableEq

/-- Condition operators of `types/widgets.ts`. -/
inductive ConditionOperator where
  | lt
  | lte
  | gt
  | gte
  | eq
  | between
deriving Repr, DecidableEq

/-- One status condition (`StatusCondition` of `types/widgets.ts`); the
operand fields are optional in the TS type. -/
structure StatusCondition where
  operator : ConditionOperator
  value : Option Rat := none
  min : Option Rat := none
  max : Option Rat := none
  status : StatusLevel
  label : String
deriving Repr, DecidableEq

/-- Result shape of `evaluateStatus`. -/
structure StatusResult where
  level : StatusLevel
  label : String
deriving Repr, DecidableEq

/-- Embeds `checkCondition` (widgetDataProcessor.ts): each comparison first
requires its operand(s) to be defined; `between` is inclusive at both ends. -/
def checkCondition (value : Rat) (condition : StatusCondition) : Bool :=
  match condition.operator with
  | .lt =>
    match condition.value with
    | some v => decide (value < v)
    | none => false
  | .lte =>
    match condition.value with
    | some v => decide (value ≤ v)
    | none => false
  | .gt =>
    match condition.value with
    | some v => decide (value > v)
    | none => false
  | .gte =>
    match condition.value with
    | some v => decide (value ≥ v)
    | none => false
  | .eq =>
    match condition.value with
    | some v => decide (value = v)
    | none => false
  | .between =>
    match condition.min, condition.max with
    | some mn, some mx => decide (value ≥ mn) && decide (value ≤ mx)
    | _, _ => false

/-- The first-match loop of `evaluateStatus` (the `for` over conditions). -/
def evaluateStatusLoop (value : Rat) : List StatusCondition → StatusResult
  | [] => { level := .info, label := "Unknown" }
  | c :: rest =>
    if checkCondition value c then { level := c.status, label := c.label }
    else evaluateStatusLoop value rest

/-- Embeds `evaluateStatus` (widgetDataProcessor.ts): default result for a
missing or empty condition list, else first match in list order. -/
def evaluateStatus (value : Rat) (conditions : Option (List StatusCondition)) :
    StatusResult :=
  match conditions with
  | none => { level := .info, label := "Unknown" }
  | some cs =>
    if cs.isEmpty then { level := .info, label := "Unknown" }
    else evaluateStatusLoop value cs

/-- Conversion targets of `ConversionSettings` (types/widgets.ts). -/
inductive ConvertTo where
  | fahrenheit
  | kelvin
deriving Repr, DecidableEq

/-- Embeds `ConversionSettings` (types/widgets.ts); `convertTo` is optional. -/
structure ConversionSettings where
  enabled : Bool
  convertTo : Option ConvertTo := none
deriving Repr, DecidableEq

/-- Embeds `convertTemperature` (widgetDataProcessor.ts): identity when the
settings are absent, disabled or target-less, else the temperature formula.
The function never sees the measurement's unit. -/
def convertTemperature (value : Rat) (conversion : Option ConversionSettings) :
    Rat :=
  match conversion with
  | none => value
  | some c =>
    if !c.enabled then value
    else
      match c.convertTo with
      | none => value
      | some .fahrenheit => value * 9 / 5 + 32
      | some .kelvin => value + 273.15

/-- Embeds `getConvertedUnit` (widgetDataProcessor.ts): only the exact label
`"°C"` is rewritten; any other unit label is returned unchanged. -/
def getConvertedUnit (originalUnit : String)
    (conversion : Option ConversionSettings) : String :=
  match conversion with
  | none => originalUnit
  | some c =>
    if !c.enabled then originalUnit
    else
      match c.convertTo with
      | none => originalUnit
      | some ct =>
        if originalUnit = "°C" then
          match ct with
          | .fahrenheit => "°F"
          | .kelvin => "K"
        else originalUnit

/-- One entry of the assembled time series (`TimeSeriesDataPoint`). -/
structure TimeSeriesDataPoint where
  timestamp : String
  value : Rat
deriving Repr, DecidableEq

/-- Widget display kinds (`WidgetType` of `types/widgets.ts`), a closed
union of four string literals. -/
inductive WidgetType where
  | currentValue
  | timeSeries
  | gauge
  | status
deriving Repr, DecidableEq

/-- Per-measurement override entry of `WidgetInstance.sectionOverrides`. -/
structure SectionOverride where
  hidden : Option Bool := none
  displayTypes : Option (List WidgetType) := none
deriving Repr, DecidableEq

/-- Embeds `WidgetInstance` (types/widgets.ts), restricted to the fields read
by the embedded functions; the remaining fields (title, custom axis bounds,
legacy measurement/widget type, template id) are pass-through configuration
never inspected here.  `sectionOverrides` is a JS object keyed by measurement
id, embedded as an association list with first-hit lookup. -/
structure WidgetInstance where
  id : String
  devEui : String
  conversion : Option ConversionSettings := none
  sectionOverrides : Option (List (String × SectionOverride)) := none
deriving Repr, DecidableEq

/-- Status widget configuration (`StatusWidgetConfig`). -/
structure StatusWidgetConfig where
  enabled : Bool
  conditions : Option (List StatusCondition) := none
deriving Repr, DecidableEq

/-- The `widgets` block of a measurement definition.  Only the status-widget
configuration is ever read by the embedded functions; the current-value,
time-series and gauge configurations are passed through to child components
unread and are omitted. -/
structure MeasurementWidgetsConfig where
  status : StatusWidgetConfig
deriving Repr, DecidableEq

/-- Embeds `MeasurementDefinition` (types/widgets.ts). -/
structure MeasurementDefinition where
  id : String
  path : String
  name : String
  unit : String
  decimals : Nat
  widgets : MeasurementWidgetsConfig
deriving Repr, DecidableEq

/-- Embeds `WidgetData` (types/widgets.ts); every payload field is optional. -/
structure WidgetData where
  widgetId : String
  currentValue : Option Rat := none
  timestamp : Option String := none
  timeSeries : Option (List TimeSeriesDataPoint) := none
  status : Option StatusResult := none
  unit : Option String := none
  decimals : Option Nat := none
  error : Option String := none
deriving Repr, DecidableEq

/-- Fallback of the uplink extraction: `f.dev_eui ? f : undefined`. -/
def devEuiFallback (f : JsonValue) : Option JsonValue :=
  match jsGet f "dev_eui" with
  | some d => if jsTruthy d then some f else none
  | none => none

/-- Element-wise embedding of
`frames.map(f => f.Uplink || (f.dev_eui ? f : undefined))`:
a truthy `Uplink` field wins, else a frame with a truthy `dev_eui` stands for
itself, else the frame is dropped. -/
def frameToUplink (f : JsonValue) : Option JsonValue :=
  match jsGet f "Uplink" with
  | some u => if jsTruthy u then some u else devEuiFallback f
  | none => devEuiFallback f

/-- The uplink extraction step of `processWidgetData`: `.map` then `.filter`
of defined results is a `filterMap`. -/
def uplinkFrames (frames : List JsonValue) : List JsonValue :=
  frames.filterMap frameToUplink

/-- Reads `frame.received_at` for the truthiness test and the timestamp use in
`processWidgetData`.  The TS type declares `received_at` as an optional
string, so only string values occur; the empty string is falsy and skipped. -/
def receivedAt (f : JsonValue) : Option String :=
  match jsGet f "received_at" with
  | some (.str s) => if s = "" then none else some s
  | _ => none

/-- The time-series accumulation loop of `processWidgetData`: a point is
pushed exactly when the extracted value is non-null and the frame has a
truthy `received_at`; conversion is applied to every pushed value. -/
def rawTimeSeries (uplinks : List JsonValue) (path : String)
    (conversion : Option ConversionSettings) : List TimeSeriesDataPoint :=
  uplinks.filterMap (fun frame =>
    match extractMeasurementValue frame path, receivedAt frame with
    | some value, some t =>
      some { timestamp := t, value := convertTemperature value conversion }
    | _, _ => none)

/-- Sort order used by `timeSeries.sort((a, b) => getTime(a) - getTime(b))`,
with `getTime` abstracting `new Date(s).getTime()`. -/
def timeLe (getTime : String → Int) (a b : TimeSeriesDataPoint) : Prop :=
  getTime a.timestamp ≤ getTime b.timestamp

instance (getTime : String → Int) : DecidableRel (timeLe getTime) := fun a b =>
  inferInstanceAs (Decidable (getTime a.timestamp ≤ getTime b.timestamp))

instance (getTime : String → Int) :
    IsTotal TimeSeriesDataPoint (timeLe getTime) :=
  ⟨fun a b => Int.le_total (getTime a.timestamp) (getTime b.timestamp)⟩

instance (getTime : String → Int) :
    IsTrans TimeSeriesDataPoint (timeLe getTime) :=
  ⟨fun _ _ _ hab hbc => le_trans hab hbc⟩

/-- Embeds `processWidgetData` (widgetDataProcessor.ts).  The `getTime`
parameter abstracts the JavaScript `new Date(s).getTime()` builtin; the
in-place `Array.prototype.sort` (stable per the ECMAScript spec) is modelled
by the stable `List.insertionSort`.  An empty or missing frame list returns
`null` before any other check. -/
def processWidgetData (getTime : String → Int) (frames : List JsonValue)
    (widget : WidgetInstance) (measurement : MeasurementDefinition) :
    Option WidgetData :=
  if frames.isEmpty then none
  else
    let uplinks := uplinkFrames frames
    if uplinks.isEmpty then
      some { widgetId := widget.id, error := some "No uplink frames found" }
    else
      let ts := rawTimeSeries uplinks measurement.path widget.conversion
      if ts.isEmpty then
        some { widgetId := widget.id
             , error := some ("No data found at path: " ++ measurement.path) }
      else
        let sorted := List.insertionSort (timeLe getTime) ts
        match sorted.getLast? with
        | none => none
        | some latest =>
          some { widgetId := widget.id
               , currentValue := some latest.value
               , timestamp := some latest.timestamp
               , timeSeries := some sorted
               , status := some (evaluateStatus latest.value
                   measurement.widgets.status.conditions)
               , unit := some (getConvertedUnit measurement.unit
                   widget.conversion)
               , decimals := some measurement.decimals }

/-- One grid position entry (`Layout` of react-grid-layout): `i` is the
widget id the entry belongs to. -/
structure LayoutItem where
  i : String
  x : Int
  y : Int
  w : Int
  h : Int
deriving Repr, DecidableEq

/-- The per-breakpoint position lists; only the primary breakpoint `lg` is
touched by `deleteWidget`. -/
structure DashboardLayouts where
  lg : List LayoutItem
deriving Repr, DecidableEq

/-- Embeds `DashboardLayout` (types/widgets.ts), restricted to the fields the
embedded operations read or preserve structurally. -/
structure DashboardLayout where
  timeRange : String
  autoRefresh : Bool
  refreshInterval : Nat
  widgets : List WidgetInstance
  layouts : DashboardLayouts
deriving Repr, DecidableEq

/-- Embeds the state update of `deleteWidget` (useDashboardLayout.ts): one
update filters the widget with the given id out of the widget list and the
position entry with that id out of the `lg` layout list. -/
def deleteWidget (id : String) (prev : DashboardLayout) : DashboardLayout :=
  { prev with
    widgets := prev.widgets.filter (fun w => w.id != id)
    layouts := { prev.layouts with
                 lg := prev.layouts.lg.filter (fun l => l.i != id) } }

/-- Size hints of a template section's per-type layout block. -/
inductive WidgetSize where
  | small
  | medium
  | large
deriving Repr, DecidableEq

/-- The measurement reference of a template section: a single id or an array
of ids (combined-chart section). -/
inductive SectionMeasurementRef where
  | single (id : String)
  | multiple (ids : List String)
deriving Repr, DecidableEq

/-- Embeds `TemplateSection` (types/widgets.ts), restricted to the fields the
renderer reads.  The sparse `layout` map (per display type, optional size) is
an association list; the `position` hint and `chartConfig` are never read by
`renderSection` and are omitted. -/
structure TemplateSection where
  measurementId : SectionMeasurementRef
  displayTypes : List WidgetType
  layout : List (WidgetType × Option WidgetSize) := []
deriving Repr, DecidableEq

/-- Embeds `WidgetTemplate` (types/widgets.ts), restricted to the fields the
renderer reads. -/
structure WidgetTemplate where
  id : String
  name : String
  sections : List TemplateSection
deriving Repr, DecidableEq

/-- Embeds `DeviceTypeDefinition` (types/widgets.ts), restricted to the fields
the renderer reads. -/
structure DeviceTypeDefinition where
  deviceType : String
  name : String
  measurements : List MeasurementDefinition
deriving Repr, DecidableEq

/-- One entry of the `measurementData` prop of `CompositeDeviceWidget`. -/
structure MeasurementDataEntry where
  measurementId : String
  data : WidgetData
deriving Repr, DecidableEq

/-- Lookup in the `sectionOverrides` object: `widget.sectionOverrides?.[id]`. -/
def overrideFor (w : WidgetInstance) (measurementId : String) :
    Option SectionOverride :=
  match w.sectionOverrides with
  | none => none
  | some entries =>
    (entries.find? (fun e => e.fst == measurementId)).map Prod.snd

/-- Truthiness of `widget.sectionOverrides?.[id]?.hidden`. -/
def overrideHidden (w : WidgetInstance) (measurementId : String) : Bool :=
  match (overrideFor w measurementId).bind SectionOverride.hidden with
  | some b => b
  | none => false

/-- Effective display types of one measurement in a section:
`widget.sectionOverrides?.[id]?.displayTypes || section.displayTypes`
(an array present on the override is used even when empty: arrays are
truthy). -/
def effectiveDisplayTypes (w : WidgetInstance) (measurementId : String)
    (s : TemplateSection) : List WidgetType :=
  match (overrideFor w measurementId).bind SectionOverride.displayTypes with
  | some ds => ds
  | none => s.displayTypes

/-- Size hint for one display type: `section.layout?.[type]?.size`. -/
def sizeFor (s : TemplateSection) (t : WidgetType) : Option WidgetSize :=
  (s.layout.find? (fun e => e.fst == t)).bind Prod.snd

/-- Display name of one size hint. -/
def sizeName : WidgetSize → String
  | .small => "small"
  | .medium => "medium"
  | .large => "large"

/-- The CSS size class computed by `renderWidget`. -/
def sizeClass : Option WidgetSize → String
  | some s => "widget-" ++ sizeName s
  | none => "widget-medium"

/-- Rendered output of `renderWidget`: an inline error marker when the
measurement id is unknown, else one widget item.  The concrete child
component only depends on the display type; its props (`data`, the per-type
config) are passed through unread here. -/
inductive RenderedWidget where
  | missing (measurementId : String)
  | item (measurementId : String) (displayType : WidgetType)
      (sizeCls : String)
deriving Repr, DecidableEq

/-- Embeds `renderWidget` of `CompositeDeviceWidget.tsx`. -/
def renderWidget (dt : DeviceTypeDefinition) (t : WidgetType)
    (measurementId : String) (size : Option WidgetSize) : RenderedWidget :=
  match dt.measurements.find? (fun m => m.id == measurementId) with
  | none => .missing measurementId
  | some _ => .item measurementId t (sizeClass size)

/-- Display name shown in the section label:
`deviceType.measurements.find(m => m.id === mId)?.name`. -/
def measurementName (dt : DeviceTypeDefinition) (measurementId : String) :
    Option String :=
  (dt.measurements.find? (fun m => m.id == measurementId)).map
    (fun m => m.name)

/-- One rendered measurement block (`composite-section` div): the label and
the widget items rendered for each effective display type. -/
structure MeasurementBlock where
  measurementId : String
  label : Option String
  widgets : List RenderedWidget
deriving Repr, DecidableEq

/-- The block `renderSection` renders for one measurement id. -/
def renderMeasurementBlock (dt : DeviceTypeDefinition) (w : WidgetInstance)
    (s : TemplateSection) (measurementId : String) : MeasurementBlock :=
  { measurementId := measurementId
  , label := measurementName dt measurementId
  , widgets := (effectiveDisplayTypes w measurementId s).map
      (fun t => renderWidget dt t measurementId (sizeFor s t)) }

/-- Result of `renderSection`: `nullRender` embeds the `return null` of a
hidden section; a combined section yields one optional block per referenced
id (`null` when no data entry exists for that id); a single-measurement
section yields a no-data marker or one block. -/
inductive SectionRender where
  | nullRender
  | combined (entries : List (Option MeasurementBlock))
  | noData (measurementId : String)
  | single (block : MeasurementBlock)
deriving Repr, DecidableEq

/-- Embeds `renderSection` of `CompositeDeviceWidget.tsx`.  For a combined
section the hidden check reads the override of the FIRST referenced id only
(`section.measurementId[0]`); each id's display types are then resolved
against the override keyed by that id.  An empty id array looks up the
override of `undefined`, which never exists, and renders an empty list. -/
def renderSection (dt : DeviceTypeDefinition) (w : WidgetInstance)
    (measurementData : List MeasurementDataEntry) (s : TemplateSection) :
    SectionRender :=
  match s.measurementId with
  | .multiple ids =>
    match ids with
    | [] => .combined []
    | firstId :: _ =>
      if overrideHidden w firstId then .nullRender
      else
        .combined (ids.map (fun mId =>
          match measurementData.find? (fun e => e.measurementId == mId) with
          | none => none
          | some _ => some (renderMeasurementBlock dt w s mId)))
  | .single mId =>
    if overrideHidden w mId then .nullRender
    else
      match measurementData.find? (fun e => e.measurementId == mId) with
      | none => .noData mId
      | some _ => .single (renderMeasurementBlock dt w s mId)

/-- Embeds the body of `CompositeDeviceWidget`: every template section is
rendered independently, in template order. -/
def compositeDeviceWidget (dt : DeviceTypeDefinition) (w : WidgetInstance)
    (template : WidgetTemplate)
    (measurementData : List MeasurementDataEntry) : List SectionRender :=
  template.sections.map (renderSection dt w measurementData)

/-- The override-lookup key of a section: its id for a single-measurement
section, its first id for a combined section (`section.measurementId[0]`). -/
def sectionLookupId (s : TemplateSection) : Option String :=
  match s.measurementId with
  | .single mId => some mId
  | .multiple [] => none
  | .multiple (firstId :: _) => some firstId

/-- The same widget instance with the hidden mark removed from the override
entry keyed by the given measurement id (display types untouched). -/
def clearHiddenAt (w : WidgetInstance) (measurementId : String) :
    WidgetInstance :=
  { w with sectionOverrides :=
      match w.sectionOverrides with
      | none => none
      | some entries => some (entries.map (fun e =>
          if e.fst == measurementId then
            (e.fst, { e.snd with hidden := none })
          else e)) }

/-! ## Theorems about the status evaluator -/

/-- Helper: the first-match loop returns the entry of the first matching
index. -/
theorem evaluateStatusLoop_first (value : Rat) :
    ∀ (cs : List StatusCondition) (i : Nat) (hi : i < cs.length),
      checkCondition value (cs.get ⟨i, hi⟩) = true →
      (∀ j (hj : j < cs.length), j < i →
        checkCondition value (cs.get ⟨j, hj⟩) = false) →
      evaluateStatusLoop value cs =
        { level := (cs.get ⟨i, hi⟩).status
        , label := (cs.get ⟨i, hi⟩).label } := by
  intro cs
  induction cs with
  | nil => intro i hi; exact absurd hi (by simp)
  | cons c rest ih =>
    intro i hi hmatch hfirst
    cases i with
    | zero =>
      simp only [List.get] at hmatch
      simp [evaluateStatusLoop, hmatch]
    | succ n =>
      have hc : checkCondition value c = false := by
        have h0 := hfirst 0 (by simp) (Nat.succ_pos n)
        simpa using h0
      have hn : n < rest.length := Nat.lt_of_succ_lt_succ hi
      have htail := ih n hn (by simpa using hmatch)
        (fun j hj hji => by
          have hstep := hfirst (j + 1) (Nat.succ_lt_succ hj)
            (Nat.succ_lt_succ hji)
          simpa using hstep)
      simpa [evaluateStatusLoop, hc] using htail

/-- C1: for every value and ordered condition list, status evaluation returns
the status level and label of the first condition in list order that the
value matches, never a later one's, even when a later condition would also
match. -/
theorem evaluateStatus_first_match (value : Rat) (cs : List StatusCondition)
    (i : Nat) (hi : i < cs.length)
    (hmatch : checkCondition value (cs.get ⟨i, hi⟩) = true)
    (hfirst : ∀ j (hj : j < cs.length), j < i →
      checkCondition value (cs.get ⟨j, hj⟩) = false) :
    evaluateStatus value (some cs) =
      { level := (cs.get ⟨i, hi⟩).status
      , label := (cs.get ⟨i, hi⟩).label } := by
  have hne : cs.isEmpty = false := by
    cases cs with
    | nil => exact absurd hi (by simp)
    | cons a l => rfl
  simp only [evaluateStatus, hne, Bool.false_eq_true, if_false]
  exact evaluateStatusLoop_first value cs i hi hmatch hfirst

/-- Fixture for the C1 witness: the second and the third condition both match
the value 10; the first does not. -/
def c1Conditions : List StatusCondition :=
  [ { operator := .lt, value := some 10, status := .error, label := "Low" }
  , { operator := .between, min := some 10, max := some 20
    , status := .success, label := "Normal" }
  , { operator := .gte, value := some 0, status := .warning
    , label := "AlsoMatches" } ]

/-- Witness for C1: on a list where the conditions at indices 1 and 2 both
match the value 10, evaluation returns the entry of index 1. -/
theorem evaluateStatus_first_match_witness :
    evaluateStatus 10 (some c1Conditions) =
      { level := StatusLevel.success, label := "Normal" } := by
  have hi : 1 < c1Conditions.length := by simp [c1Conditions]
  have hmatch : checkCondition 10 (c1Conditions.get ⟨1, hi⟩) = true := by
    norm_num [c1Conditions, checkCondition]
  have hfirst : ∀ j (hj : j < c1Conditions.length), j < 1 →
      checkCondition 10 (c1Conditions.get ⟨j, hj⟩) = false := by
    intro j hj hj1
    interval_cases j
    norm_num [c1Conditions, checkCondition]
  have hmain := evaluateStatus_first_match 10 c1Conditions 1 hi hmatch hfirst
  simpa [c1Conditions] using hmain

/-- Fixture for C6: the example condition list of the spec. -/
def c6Conditions : List StatusCondition :=
  [ { operator := .lt, value := some 10, status := .error, label := "Low" }
  , { operator := .between, min := some 10, max := some 20
    , status := .success, label := "Normal" } ]

/-- C6: a between condition with both bounds defined matches exactly the
values v with min ≤ v and v ≤ max (inclusive at both ends), and on the
spec's example list the value 10 yields success/Normal. -/
theorem checkCondition_between_inclusive :
    (∀ (v mn mx : Rat) (vl : Option Rat) (st : StatusLevel) (lb : String),
      checkCondition v
        { operator := .between, value := vl, min := some mn, max := some mx
        , status := st, label := lb } =
        (decide (mn ≤ v) && decide (v ≤ mx)))
    ∧ evaluateStatus 10 (some c6Conditions) =
        { level := .success, label := "Normal" } := by
  constructor
  · intro v mn mx vl st lb
    rfl
  · norm_num [c6Conditions, evaluateStatus, evaluateStatusLoop, checkCondition]

/-- Helper: the first-match loop yields the default result or the
status/label of some matching listed condition. -/
theorem evaluateStatusLoop_cases (value : Rat) :
    ∀ cs : List StatusCondition,
      evaluateStatusLoop value cs = { level := .info, label := "Unknown" }
      ∨ ∃ c ∈ cs, checkCondition value c = true ∧
          evaluateStatusLoop value cs =
            { level := c.status, label := c.label } := by
  intro cs
  induction cs with
  | nil => left; rfl
  | cons c rest ih =>
    by_cases hc : checkCondition value c = true
    · right
      exact ⟨c, by simp, hc, by simp [evaluateStatusLoop, hc]⟩
    · have hloop : evaluateStatusLoop value (c :: rest) =
          evaluateStatusLoop value rest := by
        simp [evaluateStatusLoop, hc]
      rcases ih with h | ⟨c2, hmem, hchk, heq⟩
      · left; rw [hloop]; exact h
      · right; exact ⟨c2, by simp [hmem], hchk, by rw [hloop]; exact heq⟩

/-- C10: a condition lacking its required operand never matches and is
skipped (evaluation proceeds with the remaining conditions), and status
evaluation is total: it always returns either a listed condition's
status/label or the default info/Unknown result. -/
theorem evaluateStatus_missing_operand_total :
    (∀ (value : Rat) (c : StatusCondition), c.operator ≠ .between →
      c.value = none → checkCondition value c = false)
    ∧ (∀ (value : Rat) (c : StatusCondition), c.operator = .between →
      c.min = none ∨ c.max = none → checkCondition value c = false)
    ∧ (∀ (value : Rat) (c : StatusCondition) (cs : List StatusCondition),
      checkCondition value c = false →
      evaluateStatus value (some (c :: cs)) = evaluateStatus value (some cs))
    ∧ (∀ (value : Rat) (conditions : Option (List StatusCondition)),
      evaluateStatus value conditions = { level := .info, label := "Unknown" }
      ∨ ∃ cs c, conditions = some cs ∧ c ∈ cs ∧
          checkCondition value c = true ∧
          evaluateStatus value conditions =
            { level := c.status, label := c.label }) := by
  refine ⟨?_, ?_, ?_, ?_⟩
  · intro value c hop hval
    cases c with
    | mk op vl mn mx st lb =>
      cases op <;> simp_all [checkCondition]
  · intro value c hop hminmax
    cases c with
    | mk op vl mn mx st lb =>
      subst hop
      rcases hminmax with h | h
      · simp_all [checkCondition]
      · cases mn <;> simp_all [checkCondition]
  · intro value c cs hc
    cases cs with
    | nil => simp [evaluateStatus, evaluateStatusLoop, hc]
    | cons c2 rest => simp [evaluateStatus, evaluateStatusLoop, hc]
  · intro value conditions
    match conditions with
    | none => left; rfl
    | some cs =>
      match cs with
      | [] => left; rfl
      | c :: rest =>
        have hloop := evaluateStatusLoop_cases value (c :: rest)
        have heval : evaluateStatus value (some (c :: rest)) =
            evaluateStatusLoop value (c :: rest) := by
          simp [evaluateStatus]
        rcases hloop with h | ⟨c2, hmem, hchk, heq⟩
        · left; rw [heval]; exact h
        · right
          exact ⟨c :: rest, c2, rfl, hmem, hchk, by rw [heval]; exact heq⟩

/-- Fixture for the C10 witness: a lt condition with no operand. -/
def c10NoOperand : StatusCondition :=
  { operator := .lt, value := none, status := .error, label := "L" }

/-- Witness for C10: the operand-less condition matches nothing and is
skipped. -/
theorem evaluateStatus_missing_operand_total_witness :
    checkCondition 5 c10NoOperand = false ∧
    evaluateStatus 5 (some [c10NoOperand]) = evaluateStatus 5 (some []) := by
  have h1 := evaluateStatus_missing_operand_total.1 5 c10NoOperand
    (by simp [c10NoOperand]) rfl
  exact ⟨h1, evaluateStatus_missing_operand_total.2.2.1 5 c10NoOperand [] h1⟩

/-! ## Theorems about measurement extraction -/

/-- C4 (amended): measurement extraction is a total function (the embedding
never throws by construction); it returns none when the path does not
resolve, when it resolves to null, and when the resolved value's JavaScript
numeric coercion yields NaN; a number at the path is returned exactly. -/
theorem extractMeasurementValue_spec (frame : JsonValue) (path : String) :
    (getNestedValue frame path = none →
      extractMeasurementValue frame path = none)
    ∧ (getNestedValue frame path = some .null →
      extractMeasurementValue frame path = none)
    ∧ (∀ v, getNestedValue frame path = some v → jsToNumber v = none →
      extractMeasurementValue frame path = none)
    ∧ (∀ q, getNestedValue frame path = some (.num q) →
      extractMeasurementValue frame path = some q) := by
  refine ⟨?_, ?_, ?_, ?_⟩
  · intro h; simp [extractMeasurementValue, h]
  · intro h; simp [extractMeasurementValue, h]
  · intro v h hNaN
    cases v <;> simp_all [extractMeasurementValue]
  · intro q h
    simp [extractMeasurementValue, h, jsToNumber]

/-- Fixture for the C4 witness: a frame with a number at field "a". -/
def c4NumFrame : JsonValue := .obj [("a", .num 7)]

/-- Witness for C4: a number at the path is returned exactly. -/
theorem extractMeasurementValue_spec_witness :
    extractMeasurementValue c4NumFrame "a" = some 7 :=
  (extractMeasurementValue_spec c4NumFrame "a").2.2.2 7 rfl

/-- Fixture for the C4 counterexample: a frame whose field "a" holds the
string "42". -/
def c4StrFrame : JsonValue := .obj [("a", .str "42")]

/-- Counterexample for C4 as stated: the value resolved at path "a" is a
string — not a finite number — yet extraction returns 42 (JavaScript Number
coercion of the numeric string) rather than null. -/
theorem extractMeasurementValue_string_coerced :
    getNestedValue c4StrFrame "a" = some (.str "42") ∧
    extractMeasurementValue c4StrFrame "a" = some 42 := by
  refine ⟨rfl, ?_⟩
  have h : extractMeasurementValue c4StrFrame "a" =
      some ((42 : Nat) : Rat) := rfl
  rw [h]
  norm_num

/-! ## Theorems about the widget data assembler -/

/-- Timestamp interpretation used by the concrete evaluations: any total
function serves as a model of `new Date(s).getTime()`; this one orders
timestamps by string length. -/
def strLenTime (s : String) : Int := (s.length : Int)

/-- Fixture: a widget instance with no conversion settings. -/
def c2Widget : WidgetInstance := { id := "w1", devEui := "dev" }

/-- Fixture: a temperature measurement definition. -/
def c2Measurement : MeasurementDefinition :=
  { id := "temperature", path := "decoded_payload.t", name := "Temperature"
  , unit := "°C", decimals := 1
  , widgets := { status := { enabled := true, conditions := none } } }

/-- Counterexample for C2 as stated: on the empty input frame list the
assembler returns null (none), not the "No uplink frames found" error
payload. -/
theorem processWidgetData_empty_input_null :
    processWidgetData strLenTime [] c2Widget c2Measurement = none := rfl

/-- C2 (amended): an empty input list returns null before any other check;
the "No uplink frames found" error payload (carrying the widget id) is
returned exactly when the input list is non-empty but no frame yields an
uplink frame; no exception is raised (the embedding is a total function). -/
theorem processWidgetData_no_uplink_error (getTime : String → Int)
    (frames : List JsonValue) (widget : WidgetInstance)
    (measurement : MeasurementDefinition)
    (hne : frames ≠ []) (hup : uplinkFrames frames = []) :
    processWidgetData getTime frames widget measurement =
      some { widgetId := widget.id
           , error := some "No uplink frames found" } := by
  have h1 : frames.isEmpty = false := by
    cases frames with
    | nil => exact absurd rfl hne
    | cons f rest => rfl
  simp [processWidgetData, h1, hup]

/-- Fixture: a non-empty frame list containing no uplink frame (no `Uplink`
field and no `dev_eui` field). -/
def c2NoUplinkFrames : List JsonValue := [.obj [("foo", .num 1)]]

/-- Witness for C2 (amended): a non-empty list without uplink frames yields
the error payload. -/
theorem processWidgetData_no_uplink_error_witness :
    processWidgetData strLenTime c2NoUplinkFrames c2Widget c2Measurement =
      some { widgetId := "w1"
           , error := some "No uplink frames found" } := by
  have h := processWidgetData_no_uplink_error strLenTime c2NoUplinkFrames
    c2Widget c2Measurement (by simp [c2NoUplinkFrames]) rfl
  simpa [c2Widget] using h

/-- Fixture for C3: a humidity measurement — its unit "%" is not the known
temperature unit. -/
def c3Measurement : MeasurementDefinition :=
  { id := "humidity", path := "decoded_payload.hum", name := "Humidity"
  , unit := "%", decimals := 0
  , widgets := { status := { enabled := true, conditions := none } } }

/-- Fixture for C3: a widget instance with Fahrenheit conversion enabled. -/
def c3Widget : WidgetInstance :=
  { id := "w2", devEui := "dev"
  , conversion := some { enabled := true, convertTo := some .fahrenheit } }

/-- Fixture for C3: one uplink frame with humidity value 50. -/
def c3Frame : JsonValue :=
  .obj [("Uplink", .obj
    [ ("received_at", .str "t1")
    , ("decoded_payload", .obj [("hum", .num 50)]) ])]

/-- Evaluation at the C3 failing input: with conversion enabled on a
non-temperature measurement (unit "%"), the assembler applies the Fahrenheit
formula to the value (50 becomes 122) while leaving the unit label "%"
unchanged — the value conversion is applied regardless of the source unit,
contradicting the claim that it is a no-op on the value. -/
theorem processWidgetData_converts_non_temperature :
    processWidgetData strLenTime [c3Frame] c3Widget c3Measurement =
      some { widgetId := "w2"
           , currentValue := some 122
           , timestamp := some "t1"
           , timeSeries := some [{ timestamp := "t1", value := 122 }]
           , status := some { level := .info, label := "Unknown" }
           , unit := some "%"
           , decimals := some 0 } := by
  have hv : (50 : Rat) * 9 / 5 + 32 = 122 := by norm_num
  have h : processWidgetData strLenTime [c3Frame] c3Widget c3Measurement =
      some { widgetId := "w2"
           , currentValue := some ((50 : Rat) * 9 / 5 + 32)
           , timestamp := some "t1"
           , timeSeries := some [{ timestamp := "t1"
                                 , value := (50 : Rat) * 9 / 5 + 32 }]
           , status := some { level := .info, label := "Unknown" }
           , unit := some "%"
           , decimals := some 0 } := rfl
  rw [h, hv]

/-- Helper: in a pairwise-related list the last element is related from every
other element. -/
theorem pairwise_getLast_ub {α : Type} {r : α → α → Prop} :
    ∀ l : List α, l.Pairwise r → ∀ a, l.getLast? = some a →
      ∀ x ∈ l, x = a ∨ r x a := by
  intro l
  induction l with
  | nil => intro _ a ha; simp at ha
  | cons b t ih =>
    intro hp a ha x hx
    cases t with
    | nil =>
      have hba : b = a := by simpa using ha
      have hxb : x = b := by simpa using hx
      exact Or.inl (hxb.trans hba)
    | cons c t2 =>
      have ha2 : (c :: t2).getLast? = some a := by
        rw [List.getLast?_cons_cons] at ha
        exact ha
      have hamem : a ∈ c :: t2 := by
        rcases List.mem_getLast?_eq_getLast (by rw [ha2]; rfl) with ⟨hne2, hax⟩
        exact hax ▸ List.getLast_mem hne2
      rcases List.mem_cons.mp hx with hxb | hxt
      · exact Or.inr (hxb ▸ (List.pairwise_cons.mp hp).1 a hamem)
      · exact ih (List.pairwise_cons.mp hp).2 a ha2 x hxt

/-- C5: whenever at least one (timestamp, value) point is extracted, the
assembler succeeds, its time-series output is a permutation of the extracted
points sorted ascending by timestamp (regardless of input frame order), and
the reported current value and timestamp are those of a chronologically
latest extracted point. -/
theorem processWidgetData_sorted_latest (getTime : String → Int)
    (frames : List JsonValue) (widget : WidgetInstance)
    (measurement : MeasurementDefinition)
    (hne : rawTimeSeries (uplinkFrames frames) measurement.path
      widget.conversion ≠ []) :
    ∃ wd latest,
      processWidgetData getTime frames widget measurement = some wd
      ∧ (∃ sortedTs,
          wd.timeSeries = some sortedTs
          ∧ List.Sorted (timeLe getTime) sortedTs
          ∧ sortedTs.Perm (rawTimeSeries (uplinkFrames frames)
              measurement.path widget.conversion))
      ∧ latest ∈ rawTimeSeries (uplinkFrames frames) measurement.path
          widget.conversion
      ∧ wd.currentValue = some latest.value
      ∧ wd.timestamp = some latest.timestamp
      ∧ ∀ q ∈ rawTimeSeries (uplinkFrames frames) measurement.path
          widget.conversion,
          getTime q.timestamp ≤ getTime latest.timestamp := by
  have hupne : uplinkFrames frames ≠ [] := by
    intro h
    exact hne (by rw [h]; rfl)
  have hfne : frames ≠ [] := by
    intro h
    exact hupne (by rw [h]; rfl)
  have h1 : frames.isEmpty = false := by
    cases frames with
    | nil => exact absurd rfl hfne
    | cons f rest => rfl
  have h2 : (uplinkFrames frames).isEmpty = false := by
    rw [List.isEmpty_eq_false]
    exact hupne
  have h3 : (rawTimeSeries (uplinkFrames frames) measurement.path
      widget.conversion).isEmpty = false := by
    rw [List.isEmpty_eq_false]
    exact hne
  have hsne : List.insertionSort (timeLe getTime)
      (rawTimeSeries (uplinkFrames frames) measurement.path
        widget.conversion) ≠ [] := by
    intro h
    have hlen := congrArg List.length h
    rw [List.length_insertionSort] at hlen
    exact hne (List.length_eq_zero.mp hlen)
  have hlast := List.getLast?_eq_getLast_of_ne_nil hsne
  have hsorted : List.Sorted (timeLe getTime)
      (List.insertionSort (timeLe getTime)
        (rawTimeSeries (uplinkFrames frames) measurement.path
          widget.conversion)) :=
    List.sorted_insertionSort (timeLe getTime) _
  have hperm : (List.insertionSort (timeLe getTime)
      (rawTimeSeries (uplinkFrames frames) measurement.path
        widget.conversion)).Perm
      (rawTimeSeries (uplinkFrames frames) measurement.path
        widget.conversion) :=
    List.perm_insertionSort (timeLe getTime) _
  have hproc : processWidgetData getTime frames widget measurement =
      some { widgetId := widget.id
           , currentValue := some ((List.insertionSort (timeLe getTime)
               (rawTimeSeries (uplinkFrames frames) measurement.path
                 widget.conversion)).getLast hsne).value
           , timestamp := some ((List.insertionSort (timeLe getTime)
               (rawTimeSeries (uplinkFrames frames) measurement.path
                 widget.conversion)).getLast hsne).timestamp
           , timeSeries := some (List.insertionSort (timeLe getTime)
               (rawTimeSeries (uplinkFrames frames) measurement.path
                 widget.conversion))
           , status := some (evaluateStatus ((List.insertionSort
               (timeLe getTime) (rawTimeSeries (uplinkFrames frames)
                 measurement.path widget.conversion)).getLast hsne).value
               measurement.widgets.status.conditions)
           , unit := some (getConvertedUnit measurement.unit
               widget.conversion)
           , decimals := some measurement.decimals } := by
    simp only [processWidgetData, h1, h2, h3, Bool.false_eq_true, if_false,
      hlast]
  refine ⟨_, (List.insertionSort (timeLe getTime)
    (rawTimeSeries (uplinkFrames frames) measurement.path
      widget.conversion)).getLast hsne,
    hproc, ⟨_, rfl, hsorted, hperm⟩, ?_, rfl, rfl, ?_⟩
  · exact hperm.mem_iff.mp (List.getLast_mem hsne)
  · intro q hq
    have hqs : q ∈ List.insertionSort (timeLe getTime)
        (rawTimeSeries (uplinkFrames frames) measurement.path
          widget.conversion) := hperm.mem_iff.mpr hq
    rcases pairwise_getLast_ub _ hsorted _ hlast q hqs with h | h
    · rw [h]
    · exact h

/-- Fixture for the C5 witness: two uplink frames whose timestamps arrive in
reverse chronological order under `strLenTime` ("zz" is later than "a"). -/
def c5Frames : List JsonValue :=
  [ .obj [("Uplink", .obj
      [ ("received_at", .str "zz")
      , ("decoded_payload", .obj [("t", .num 7)]) ])]
  , .obj [("Uplink", .obj
      [ ("received_at", .str "a")
      , ("decoded_payload", .obj [("t", .num 3)]) ])] ]

/-- Witness for C5: the two extracted points are non-empty and the assembler
output satisfies the sortedness and latest-point properties. -/
theorem processWidgetData_sorted_latest_witness :
    rawTimeSeries (uplinkFrames c5Frames) c2Measurement.path
      c2Widget.conversion ≠ [] ∧
    ∃ wd latest,
      processWidgetData strLenTime c5Frames c2Widget c2Measurement = some wd
      ∧ (∃ sortedTs,
          wd.timeSeries = some sortedTs
          ∧ List.Sorted (timeLe strLenTime) sortedTs
          ∧ sortedTs.Perm (rawTimeSeries (uplinkFrames c5Frames)
              c2Measurement.path c2Widget.conversion))
      ∧ latest ∈ rawTimeSeries (uplinkFrames c5Frames) c2Measurement.path
          c2Widget.conversion
      ∧ wd.currentValue = some latest.value
      ∧ wd.timestamp = some latest.timestamp
      ∧ ∀ q ∈ rawTimeSeries (uplinkFrames c5Frames) c2Measurement.path
          c2Widget.conversion,
          strLenTime q.timestamp ≤ strLenTime latest.timestamp := by
  have hne : rawTimeSeries (uplinkFrames c5Frames) c2Measurement.path
      c2Widget.conversion ≠ [] := by
    have h : rawTimeSeries (uplinkFrames c5Frames) c2Measurement.path
        c2Widget.conversion =
        [ { timestamp := "zz", value := 7 }
        , { timestamp := "a", value := 3 } ] := rfl
    rw [h]
    simp
  exact ⟨hne, processWidgetData_sorted_latest strLenTime c5Frames c2Widget
    c2Measurement hne⟩

/-! ## Theorems about the dashboard layout store -/

/-- C8: deleting a widget removes the widget with that id from the widget
list and the position entry with that id from the primary-breakpoint layout
list in the same update, keeps every other widget and position entry, and
preserves the no-orphan invariant: if every position entry had a matching
widget before, every position entry has a matching widget after. -/
theorem deleteWidget_removes_both (id : String) (st : DashboardLayout)
    (hinv : ∀ l ∈ st.layouts.lg, ∃ w ∈ st.widgets, w.id = l.i) :
    (∀ w ∈ (deleteWidget id st).widgets, w.id ≠ id)
    ∧ (∀ l ∈ (deleteWidget id st).layouts.lg, l.i ≠ id)
    ∧ (∀ w ∈ st.widgets, w.id ≠ id → w ∈ (deleteWidget id st).widgets)
    ∧ (∀ l ∈ st.layouts.lg, l.i ≠ id → l ∈ (deleteWidget id st).layouts.lg)
    ∧ (∀ l ∈ (deleteWidget id st).layouts.lg,
        ∃ w ∈ (deleteWidget id st).widgets, w.id = l.i) := by
  refine ⟨?_, ?_, ?_, ?_, ?_⟩
  · intro w hw
    have h := List.mem_filter.mp hw
    simpa using h.2
  · intro l hl
    have h := List.mem_filter.mp hl
    simpa using h.2
  · intro w hw hwid
    exact List.mem_filter.mpr ⟨hw, by simpa using hwid⟩
  · intro l hl hlid
    exact List.mem_filter.mpr ⟨hl, by simpa using hlid⟩
  · intro l hl
    have h := List.mem_filter.mp hl
    rcases hinv l h.1 with ⟨w, hwmem, hwid⟩
    refine ⟨w, List.mem_filter.mpr ⟨hwmem, ?_⟩, hwid⟩
    have hlne : l.i ≠ id := by simpa using h.2
    simpa using hwid ▸ hlne

/-- Fixture for the C8 witness: a dashboard with two widgets and their two
position entries. -/
def c8State : DashboardLayout :=
  { timeRange := "24h", autoRefresh := true, refreshInterval := 30
  , widgets := [ { id := "w1", devEui := "d1" }, { id := "w2", devEui := "d2" } ]
  , layouts := { lg := [ { i := "w1", x := 0, y := 0, w := 3, h := 2 }
                       , { i := "w2", x := 3, y := 0, w := 3, h := 2 } ] } }

/-- Witness for C8: deleting widget "w1" from the two-widget dashboard leaves
no entry with id "w1" and no orphaned position entry. -/
theorem deleteWidget_removes_both_witness :
    (∀ w ∈ (deleteWidget "w1" c8State).widgets, w.id ≠ "w1")
    ∧ (∀ l ∈ (deleteWidget "w1" c8State).layouts.lg, l.i ≠ "w1")
    ∧ (∀ l ∈ (deleteWidget "w1" c8State).layouts.lg,
        ∃ w ∈ (deleteWidget "w1" c8State).widgets, w.id = l.i) := by
  have hinv : ∀ l ∈ c8State.layouts.lg, ∃ w ∈ c8State.widgets, w.id = l.i := by
    decide
  have h := deleteWidget_removes_both "w1" c8State hinv
  exact ⟨h.1, h.2.1, h.2.2.2.2⟩

/-! ## Theorems about the template/override resolver -/

/-- Helper: key lookup commutes with clearing the hidden mark at one key. -/
theorem find?_map_clearHidden (m k : String)
    (entries : List (String × SectionOverride)) :
    (entries.map (fun e =>
      if e.fst == m then (e.fst, { e.snd with hidden := none }) else e)).find?
        (fun e => e.fst == k) =
      if k = m then
        (entries.find? (fun e => e.fst == k)).map
          (fun e => (e.fst, { e.snd with hidden := none }))
      else entries.find? (fun e => e.fst == k) := by
  induction entries with
  | nil => by_cases h : k = m <;> simp [h]
  | cons e rest ih =>
    by_cases h1 : e.fst = k
    · have hb1 : (e.fst == k) = true := beq_iff_eq.mpr h1
      by_cases h2 : k = m
      · have hb2 : (e.fst == m) = true := beq_iff_eq.mpr (h1.trans h2)
        simp [List.find?, hb1, hb2, h2]
      · have hb2 : (e.fst == m) = false := by
          rw [beq_eq_false_iff_ne, h1]
          exact h2
        simp [List.find?, hb1, hb2, h2]
    · have hb1 : (e.fst == k) = false := beq_eq_false_iff_ne.mpr h1
      by_cases h3 : e.fst = m
      · have hb3 : (e.fst == m) = true := beq_iff_eq.mpr h3
        simpa [List.find?, hb1, hb3, -List.find?_map] using ih
      · have hb3 : (e.fst == m) = false := beq_eq_false_iff_ne.mpr h3
        simpa [List.find?, hb1, hb3, -List.find?_map] using ih

/-- Helper: override lookup after clearing the hidden mark at one id. -/
theorem overrideFor_clearHiddenAt (w : WidgetInstance) (m k : String) :
    overrideFor (clearHiddenAt w m) k =
      if k = m then
        (overrideFor w k).map (fun e => { e with hidden := none })
      else overrideFor w k := by
  obtain ⟨wid, dev, conv, so⟩ := w
  cases so with
  | none => by_cases h : k = m <;> simp [overrideFor, clearHiddenAt, h]
  | some entries =>
    simp only [overrideFor, clearHiddenAt]
    rw [find?_map_clearHidden]
    by_cases h : k = m
    · cases hf : entries.find? (fun e => e.fst == k) <;> simp [h, hf]
    · simp [h]

/-- Helper: clearing the hidden mark at one id clears exactly that id's
hidden flag. -/
theorem overrideHidden_clearHiddenAt (w : WidgetInstance) (m k : String) :
    overrideHidden (clearHiddenAt w m) k =
      if k = m then false else overrideHidden w k := by
  unfold overrideHidden
  rw [overrideFor_clearHiddenAt]
  by_cases h : k = m
  · cases hov : overrideFor w k <;> simp [h, hov]
  · simp [h]

/-- Helper: clearing a hidden mark never changes effective display types. -/
theorem effectiveDisplayTypes_clearHiddenAt (w : WidgetInstance)
    (m k : String) (s : TemplateSection) :
    effectiveDisplayTypes (clearHiddenAt w m) k s =
      effectiveDisplayTypes w k s := by
  unfold effectiveDisplayTypes
  rw [overrideFor_clearHiddenAt]
  by_cases h : k = m
  · cases hov : overrideFor w k <;> simp [h, hov]
  · simp [h]

/-- Helper: rendered measurement blocks ignore hidden marks. -/
theorem renderMeasurementBlock_clearHiddenAt (dt : DeviceTypeDefinition)
    (w : WidgetInstance) (s : TemplateSection) (m mId : String) :
    renderMeasurementBlock dt (clearHiddenAt w m) s mId =
      renderMeasurementBlock dt w s mId := by
  unfold renderMeasurementBlock
  rw [effectiveDisplayTypes_clearHiddenAt]

/-- C9: with some measurement id marked hidden by override, every template
section whose override-lookup id is that id renders as null (omitted
entirely), and every other section of the template renders exactly as it
would with that hidden mark removed (other sections unchanged). -/
theorem renderSection_hidden_override (dt : DeviceTypeDefinition)
    (w : WidgetInstance) (md : List MeasurementDataEntry)
    (template : WidgetTemplate) (m : String)
    (hhid : overrideHidden w m = true) :
    ∀ s ∈ template.sections,
      (sectionLookupId s = some m → renderSection dt w md s = .nullRender)
      ∧ (sectionLookupId s ≠ some m →
          renderSection dt w md s =
            renderSection dt (clearHiddenAt w m) md s) := by
  intro s _
  constructor
  · intro hlook
    cases href : s.measurementId with
    | single mId =>
      simp only [sectionLookupId, href, Option.some_inj] at hlook
      simp [renderSection, href, hlook, hhid]
    | multiple ids =>
      cases ids with
      | nil => simp [sectionLookupId, href] at hlook
      | cons firstId restIds =>
        simp only [sectionLookupId, href, Option.some_inj] at hlook
        simp [renderSection, href, hlook, hhid]
  · intro hlook
    cases href : s.measurementId with
    | single mId =>
      simp only [sectionLookupId, href] at hlook
      have hne : mId ≠ m := fun h => hlook (by rw [h])
      simp only [renderSection, href]
      rw [overrideHidden_clearHiddenAt, if_neg hne,
        renderMeasurementBlock_clearHiddenAt]
    | multiple ids =>
      cases ids with
      | nil => simp [renderSection, href]
      | cons firstId restIds =>
        simp only [sectionLookupId, href] at hlook
        have hne : firstId ≠ m := fun h => hlook (by rw [h])
        simp only [renderSection, href]
        rw [overrideHidden_clearHiddenAt, if_neg hne]
        simp only [renderMeasurementBlock_clearHiddenAt]

/-- Fixture: two measurement definitions "a" and "b". -/
def c9Measurements : List MeasurementDefinition :=
  [ { id := "a", path := "p.a", name := "A", unit := "", decimals := 0
    , widgets := { status := { enabled := true, conditions := none } } }
  , { id := "b", path := "p.b", name := "B", unit := "", decimals := 0
    , widgets := { status := { enabled := true, conditions := none } } } ]

/-- Fixture: a device type with measurements "a" and "b". -/
def c9DeviceType : DeviceTypeDefinition :=
  { deviceType := "dt", name := "DT", measurements := c9Measurements }

/-- Fixture: a single-measurement section for "a". -/
def c9SectionA : TemplateSection :=
  { measurementId := .single "a", displayTypes := [.gauge] }

/-- Fixture: a single-measurement section for "b". -/
def c9SectionB : TemplateSection :=
  { measurementId := .single "b", displayTypes := [.currentValue] }

/-- Fixture: the two-section template of the C9 witness. -/
def c9Template : WidgetTemplate :=
  { id := "t", name := "T", sections := [c9SectionA, c9SectionB] }

/-- Fixture: a widget instance hiding measurement "a" by override. -/
def c9Widget : WidgetInstance :=
  { id := "w", devEui := "d"
  , sectionOverrides := some [("a", { hidden := some true })] }

/-- Fixture: widget data entries for measurements "a" and "b". -/
def c9Data : List MeasurementDataEntry :=
  [ { measurementId := "a", data := { widgetId := "w" } }
  , { measurementId := "b", data := { widgetId := "w" } } ]

/-- Witness for C9: hiding "a" renders section A as null while section B
renders exactly as with the hidden mark removed. -/
theorem renderSection_hidden_override_witness :
    renderSection c9DeviceType c9Widget c9Data c9SectionA = .nullRender
    ∧ renderSection c9DeviceType c9Widget c9Data c9SectionB =
        renderSection c9DeviceType (clearHiddenAt c9Widget "a") c9Data
          c9SectionB := by
  have h := renderSection_hidden_override c9DeviceType c9Widget c9Data
    c9Template "a" rfl
  exact ⟨(h c9SectionA (by simp [c9Template])).1 rfl,
         (h c9SectionB (by simp [c9Template])).2 (by decide)⟩

/-- Fixture for C7: a combined-chart section over ids "a" and "b". -/
def c7Section : TemplateSection :=
  { measurementId := .multiple ["a", "b"], displayTypes := [.gauge] }

/-- Fixture for C7: a widget instance hiding ONLY measurement "b". -/
def c7Widget : WidgetInstance :=
  { id := "w", devEui := "d"
  , sectionOverrides := some [("b", { hidden := some true })] }

/-- Counterexample for C7 as stated: in the combined section over
["a", "b"] with only "b" marked hidden by the override keyed by "b", the
block for "b" is nevertheless rendered — the hidden flag is not resolved
independently against the override keyed by each measurement's own id. -/
theorem renderSection_combined_hidden_not_independent :
    overrideHidden c7Widget "b" = true ∧
    renderSection c9DeviceType c7Widget c9Data c7Section =
      .combined
        [ some { measurementId := "a", label := some "A"
               , widgets := [.item "a" .gauge "widget-medium"] }
        , some { measurementId := "b", label := some "B"
               , widgets := [.item "b" .gauge "widget-medium"] } ] :=
  ⟨rfl, rfl⟩

/-- C7 (amended): in a combined-chart section each referenced measurement
id's effective display types are resolved independently against the override
entry keyed by that same id (falling back to the section defaults), and each
rendered entry uses exactly those types; the hidden flag, however, is read
only from the override keyed by the FIRST referenced id — it hides the whole
section when set, and the output is unchanged under any change of overrides
preserving the first id's entry and every id's displayTypes (hidden marks
keyed to later ids are irrelevant). -/
theorem renderSection_combined_resolution (dt : DeviceTypeDefinition)
    (w : WidgetInstance) (md : List MeasurementDataEntry)
    (s : TemplateSection) (firstId : String) (rest : List String)
    (href : s.measurementId = .multiple (firstId :: rest)) :
    (overrideHidden w firstId = true →
      renderSection dt w md s = .nullRender)
    ∧ (overrideHidden w firstId = false →
      renderSection dt w md s = .combined ((firstId :: rest).map (fun mId =>
        match md.find? (fun e => e.measurementId == mId) with
        | none => none
        | some _ => some
            { measurementId := mId
            , label := measurementName dt mId
            , widgets := (effectiveDisplayTypes w mId s).map
                (fun t => renderWidget dt t mId (sizeFor s t)) })))
    ∧ (∀ w2 : WidgetInstance,
        overrideFor w2 firstId = overrideFor w firstId →
        (∀ mId, (overrideFor w2 mId).bind SectionOverride.displayTypes =
          (overrideFor w mId).bind SectionOverride.displayTypes) →
        renderSection dt w2 md s = renderSection dt w md s) := by
  refine ⟨?_, ?_, ?_⟩
  · intro h
    simp [renderSection, href, h]
  · intro h
    simp [renderSection, href, h, renderMeasurementBlock]
  · intro w2 hfirst hdisp
    have hh : overrideHidden w2 firstId = overrideHidden w firstId := by
      unfold overrideHidden
      rw [hfirst]
    have he : ∀ mId, effectiveDisplayTypes w2 mId s =
        effectiveDisplayTypes w mId s := by
      intro mId
      unfold effectiveDisplayTypes
      rw [hdisp]
    simp only [renderSection, href]
    rw [hh]
    cases overrideHidden w firstId
    · simp only [Bool.false_eq_true, if_false, renderMeasurementBlock, he]
    · simp

/-- Witness for C7 (amended): the combined section over ["a", "b"] with "a"
not hidden renders one entry per id with the per-id resolved display
types. -/
theorem renderSection_combined_resolution_witness :
    overrideHidden c7Widget "a" = false ∧
    renderSection c9DeviceType c7Widget c9Data c7Section =
      .combined ((["a", "b"] : List String).map (fun mId =>
        match c9Data.find? (fun e => e.measurementId == mId) with
        | none => none
        | some _ => some
            { measurementId := mId
            , label := measurementName c9DeviceType mId
            , widgets := (effectiveDisplayTypes c7Widget mId c7Section).map
                (fun t => renderWidget c9DeviceType t mId
                  (sizeFor c7Section t)) })) :=
  ⟨rfl, (renderSection_combined_resolution c9DeviceType c7Widget c9Data
    c7Section "a" ["b"] rfl).2.1 rfl⟩

end LoRaDB
